import Mathlib

/-!
Verification of the frontend telemetry glue layer:
the trace-context header injector (`traceContextInterceptor`,
`toHeaderRecord`, `registerTraceContextInterceptor`) and the telemetry
bootstrap (`initTelemetry`, `toError`, `recordFrontendError`).

JavaScript values appearing as header values are modelled by `JVal`;
JavaScript objects are modelled as entry lists (the result of
`Object.entries`, so keys are unique in objects produced by the runtime,
but none of the statements below needs that assumption).  Mutation of the
request-descriptor object by the interceptor is modelled with an explicit
heap from references to descriptors.
-/

namespace Telemetry

/-- A JavaScript value that may appear as a header value: a string, a
number, a boolean, `null` or `undefined`. -/
inductive JVal where
  | vStr (s : String)
  | vNum (n : Int)
  | vBool (b : Bool)
  | vNull
  | vUndef
deriving DecidableEq, Repr

/-- The test `value !== undefined && value !== null` from `toHeaderRecord`
(we name the complement: the values that the filter drops). -/
def JVal.isAbsent : JVal → Bool
  | .vNull => true
  | .vUndef => true
  | _ => false

/-- JavaScript `String(value)` on the values of `JVal`. -/
def JVal.toStr : JVal → String
  | .vStr s => s
  | .vNum n => toString n
  | .vBool true => "true"
  | .vBool false => "false"
  | .vNull => "null"
  | .vUndef => "undefined"

/-- The `headers` field of an `AxiosRequestConfig`: absent
(`undefined`/`null`, the `!headers` branch), a plain key/value object, or
an `AxiosHeaders`-like object exposing a `toJSON` method (modelled by the
entry list that `toJSON()` returns). -/
inductive HeadersVal where
  | absent
  | plain (entries : List (String × JVal))
  | axios (json : List (String × JVal))
deriving DecidableEq, Repr

/-- An outgoing-request descriptor (`AxiosRequestConfig`): the headers
collection plus one representative further field (the request URL) used to
state frame conditions. -/
structure AxiosRequestConfig where
  url : Option String := none
  headers : HeadersVal := .absent
deriving DecidableEq, Repr

/-- `toHeaderRecord`: normalize the headers collection into a flat
string-keyed, string-valued entry list.  If the collection is absent,
return the empty record; if it exposes `toJSON`, serialize through it;
then drop entries whose value is `undefined` or `null` and coerce the
remaining values with `String(...)`. -/
def toHeaderRecord (headers : HeadersVal) : List (String × String) :=
  match headers with
  | .absent => []
  | .plain es => (es.filter (fun p => !p.2.isAbsent)).map (fun p => (p.1, p.2.toStr))
  | .axios es => (es.filter (fun p => !p.2.isAbsent)).map (fun p => (p.1, p.2.toStr))

/-- The keys of a record (entry list). -/
def keysOf (l : List (String × String)) : List String := l.map Prod.fst

/-- Property lookup on a record (entry list); the first binding of the key
wins, as in a JavaScript object built by the runtime. -/
def recLookup (k : String) : List (String × String) → Option String
  | [] => none
  | p :: rest => if p.1 = k then some p.2 else recLookup k rest

/-- Override one entry of the earlier object with the later object's value
for the same key, if the later object binds the key. -/
def overrideWith (b : List (String × String)) (p : String × String) :
    String × String :=
  match recLookup p.1 b with
  | some v => (p.1, v)
  | none => p

/-- JavaScript object spread `\x7b...a, ...b\x7d` on entry lists: the keys
of `a` in order, with the value taken from `b` when `b` also binds the
key, followed by the keys of `b` that `a` does not bind, in order. -/
def spreadRec (a b : List (String × String)) : List (String × String) :=
  a.map (overrideWith b) ++ b.filter (fun p => (recLookup p.1 a).isNone)

/-- Embed a string record back into header-collection form (the object
literal assigned to `config.headers` is a plain string-valued object). -/
def HeadersVal.ofStrings (l : List (String × String)) : HeadersVal :=
  .plain (l.map (fun p => (p.1, JVal.vStr p.2)))

/-- `traceContextInterceptor`, value level.  The ambient serialization
result of `propagation.inject(context.active(), traceHeaders)` is passed
in as the `traceHeaders` record.  If it is empty the input is returned
unchanged; otherwise the descriptor's headers become the normalized
existing headers overlaid with the trace headers (trace headers win). -/
def traceContextInterceptor (traceHeaders : List (String × String))
    (config : AxiosRequestConfig) : AxiosRequestConfig :=
  if traceHeaders.length = 0 then
    config
  else
    { config with
      headers := HeadersVal.ofStrings (spreadRec (toHeaderRecord config.headers) traceHeaders) }

/-- A heap of request-descriptor objects, indexed by references.  Used to
state what the interceptor mutates. -/
def Heap := Nat → AxiosRequestConfig

/-- `traceContextInterceptor`, heap level: the source mutates the
descriptor it receives (`config.headers = ...`) and returns the same
reference.  On an empty trace-header record it returns the reference with
the heap untouched; otherwise it updates the referenced descriptor in
place and returns the same reference. -/
def traceContextInterceptorStep (traceHeaders : List (String × String))
    (r : Nat) (h : Heap) : Nat × Heap :=
  if traceHeaders.length = 0 then
    (r, h)
  else
    (r, fun s => if s = r then traceContextInterceptor traceHeaders (h r) else h s)

/-- An entry of the shared API client's request-interceptor chain: the
trace-context hook or some other interceptor. -/
inductive InterceptorTag where
  | traceContext
  | other (id : Nat)
deriving DecidableEq, Repr

/-- The module state of the interceptor registration: the
`traceContextInterceptorRegistered` flag and the shared client's request
interceptor chain (`OpenAPI.interceptors.request`). -/
structure InterceptorState where
  registered : Bool
  chain : List InterceptorTag
deriving DecidableEq, Repr

/-- `registerTraceContextInterceptor`: if the flag is set, no-op;
otherwise append the hook to the chain (`interceptors.request.use`) and
set the flag. -/
def registerTraceContextInterceptor (s : InterceptorState) : InterceptorState :=
  if s.registered then
    s
  else
    { registered := true, chain := s.chain ++ [InterceptorTag.traceContext] }

/-- `n`-fold iteration of the registration entry point. -/
def registerIter : Nat → InterceptorState → InterceptorState
  | 0, s => s
  | n + 1, s => registerIter n (registerTraceContextInterceptor s)

/-! ## Telemetry bootstrap (`initTelemetry` and its helpers) -/

/-- `DEFAULT_OTEL_COLLECTOR_URL`. -/
def DEFAULT_OTEL_COLLECTOR_URL : String := "http://localhost:4318"

/-- `DEFAULT_OTEL_SERVICE_NAME`. -/
def DEFAULT_OTEL_SERVICE_NAME : String := "react-frontend"

/-- The configuration environment read from `import.meta.env` at call
time.  A `none` field is an environment variable that is absent
(`undefined` at runtime). -/
structure Env where
  VITE_OTEL_COLLECTOR_URL : Option String
  VITE_OTEL_SERVICE_NAME : Option String
  VITE_API_URL : Option String
deriving DecidableEq, Repr

/-- JavaScript `v || d` on an optional string: falls back to `d` when `v`
is `undefined` or the empty string (both falsy). -/
def jsOrDefault (v : Option String) (d : String) : String :=
  match v with
  | none => d
  | some s => if s = "" then d else s

/-- `removeTrailingSlash`: `value.replace(/\/+$/, "")`. -/
def removeTrailingSlash (value : String) : String :=
  String.mk ((value.toList.reverse.dropWhile (fun c => c = '/')).reverse)

/-- `getTraceExporterUrl`. -/
def getTraceExporterUrl (collectorUrl : String) : String :=
  removeTrailingSlash collectorUrl ++ "/v1/traces"

/-- The regex metacharacters escaped by `escapeRegex`:
`[.*+?^$\x7b\x7d()|[\]\\]`. -/
def regexMetaChars : List Char :=
  ['.', '*', '+', '?', '^', '$', '\x7b', '\x7d', '(', ')', '|', '[', ']', '\\']

/-- `escapeRegex` on the character list: prepend a backslash to every
regex metacharacter. -/
def escapeRegexList : List Char → List Char
  | [] => []
  | c :: rest =>
    if c ∈ regexMetaChars then '\\' :: c :: escapeRegexList rest
    else c :: escapeRegexList rest

/-- `escapeRegex`: `value.replace(/[.*+?^$\x7b\x7d()|[\]\\]/g, "\\$&")`.
In the source it is applied to `import.meta.env.VITE_API_URL`, which
throws a `TypeError` when that value is `undefined`; the throwing case is
modelled at the call site in `initTelemetryBody`. -/
def escapeRegex (value : String) : String :=
  String.mk (escapeRegexList value.toList)

/-- The configuration of the `XMLHttpRequestInstrumentation` that
`initTelemetry` enables: the URLs it must never instrument and the source
strings of the `propagateTraceHeaderCorsUrls` regular expressions. -/
structure XhrConfig where
  ignoreUrls : List String
  propagateSources : List String
deriving DecidableEq, Repr

/-- Whether each external library call performed by `initTelemetry` throws
(the library code is opaque to this component; `initTelemetry` must cope
with any of these failing). -/
structure ExtBehavior where
  exporterThrows : Bool
  providerThrows : Bool
  xhrEnableThrows : Bool
  docLoadThrows : Bool
  handlersThrow : Bool
deriving DecidableEq, Repr

/-- The observable process-wide state touched by `initTelemetry`: the
`telemetryInitialized` flag, the constructed exporters (by URL), the
registered tracer providers (by service name), the enabled XHR
instrumentations (by configuration), the enabled document-load
instrumentations, the service names for which the pair of global error
handlers was installed, and the warnings emitted. -/
structure TelemetryState where
  telemetryInitialized : Bool
  exporters : List String
  providers : List String
  xhrEnabled : List XhrConfig
  docLoadEnabled : Nat
  handlerServices : List String
  warnings : Nat
deriving DecidableEq, Repr

/-- The module-initial state: flag false, nothing constructed. -/
def initialTelemetryState : TelemetryState :=
  { telemetryInitialized := false
    exporters := []
    providers := []
    xhrEnabled := []
    docLoadEnabled := 0
    handlerServices := []
    warnings := 0 }

/-- An external behavior in which no library call throws. -/
def extHonest : ExtBehavior :=
  { exporterThrows := false
    providerThrows := false
    xhrEnableThrows := false
    docLoadThrows := false
    handlersThrow := false }

/-- The body of `initTelemetry`'s `try` block (source lines 94–128),
executed sequentially; `.error sp` is a thrown exception with `sp` the
state reached before the throw (side effects performed before the throw
persist).  When `VITE_API_URL` is absent, `escapeRegex(apiBaseUrl)` throws
a `TypeError` (calling `.replace` on `undefined`) while building the
propagation URL pattern — after the exporter and provider steps, before
either instrumentation is enabled.  The last statement of the `try` block
sets `telemetryInitialized` to `true`. -/
def initTelemetryBody (ext : ExtBehavior) (env : Env) (s : TelemetryState) :
    Except TelemetryState TelemetryState :=
  let collectorUrl := jsOrDefault env.VITE_OTEL_COLLECTOR_URL DEFAULT_OTEL_COLLECTOR_URL
  let serviceName := jsOrDefault env.VITE_OTEL_SERVICE_NAME DEFAULT_OTEL_SERVICE_NAME
  let apiBaseUrl := env.VITE_API_URL
  let traceExporterUrl := getTraceExporterUrl collectorUrl
  if ext.exporterThrows then .error s else
  let s1 := { s with exporters := s.exporters ++ [traceExporterUrl] }
  if ext.providerThrows then .error s1 else
  let s2 := { s1 with providers := s1.providers ++ [serviceName] }
  match apiBaseUrl with
  | none => .error s2
  | some base =>
    let cfg : XhrConfig :=
      { ignoreUrls := [traceExporterUrl]
        propagateSources := ["^" ++ escapeRegex base] }
    if ext.xhrEnableThrows then .error s2 else
    let s3 := { s2 with xhrEnabled := s2.xhrEnabled ++ [cfg] }
    if ext.docLoadThrows then .error s3 else
    let s4 := { s3 with docLoadEnabled := s3.docLoadEnabled + 1 }
    if ext.handlersThrow then .error s4 else
    let s5 := { s4 with handlerServices := s4.handlerServices ++ [serviceName] }
    .ok { s5 with telemetryInitialized := true }

/-- `initTelemetry`: no-op when already initialized; otherwise run the
body, and on a thrown exception mark initialization complete anyway and
emit a warning (`console.warn`), letting nothing escape. -/
def initTelemetry (ext : ExtBehavior) (env : Env) (s : TelemetryState) :
    TelemetryState :=
  if s.telemetryInitialized then s
  else
    match initTelemetryBody ext env s with
    | .ok s' => s'
    | .error sp => { sp with telemetryInitialized := true, warnings := sp.warnings + 1 }

/-- A sequence of calls to `initTelemetry`, each reading a possibly
different environment and meeting possibly different library behavior. -/
def initSeq : List (ExtBehavior × Env) → TelemetryState → TelemetryState
  | [], s => s
  | ee :: rest, s => initSeq rest (initTelemetry ee.1 ee.2 s)

/-! ## Spec-modelled XHR instrumentation behavior -/

/-- Inverse of the escaping in a regex source built by `escapeRegex`: a
backslash escapes the character after it. -/
def stripEscapes : List Char → List Char
  | [] => []
  | c :: rest =>
    if c = '\\' then
      match rest with
      | [] => [c]
      | c2 :: rest2 => c2 :: stripEscapes rest2
    else c :: stripEscapes rest

/-- Modelled from the spec: the semantics of `RegExp(p).test(url)` for the
patterns `initTelemetry` builds (the regex engine is external library
code, not in src/).  Such a pattern is a `^` anchor followed by a literal
in which every regex metacharacter is backslash-escaped, and it matches
exactly the URLs having that literal as a prefix. -/
def testAnchoredEscaped (pattSource : String) (url : String) : Bool :=
  match pattSource.toList with
  | [] => false
  | c :: rest => c == '^' && (stripEscapes rest).isPrefixOf url.toList

/-- Modelled from the spec: the `XMLHttpRequestInstrumentation` (external
library code, not in src/) auto-creates a span for an outgoing request
unless the request URL is listed in `ignoreUrls`. -/
def xhrCreatesSpan (cfg : XhrConfig) (url : String) : Bool :=
  !(cfg.ignoreUrls.contains url)

/-- Modelled from the spec: the `XMLHttpRequestInstrumentation` (external
library code, not in src/) attaches trace propagation headers to an
outgoing request only when the request is instrumented at all (not
ignored) and its URL matches one of the `propagateTraceHeaderCorsUrls`
patterns. -/
def xhrAddsTraceHeaders (cfg : XhrConfig) (url : String) : Bool :=
  xhrCreatesSpan cfg url && cfg.propagateSources.any (fun p => testAnchoredEscaped p url)

/-! ## Error normalization and the diagnostic span -/

/-- A JavaScript value reaching the error-normalization path: an `Error`
instance, a string, or a plain object (with string-valued fields here;
`cyclic` marks an object whose `JSON.stringify` throws). -/
inductive JsVal where
  | jsError (message : String)
  | jsString (s : String)
  | jsObject (fields : List (String × String)) (cyclic : Bool)
deriving DecidableEq, Repr

/-- The normal error shape: what matters of a JavaScript `Error`. -/
structure JsErrorVal where
  message : String
deriving DecidableEq, Repr

/-- `JSON.stringify` on a plain object with string-valued fields (the
non-throwing case). -/
def stringifyObject (fields : List (String × String)) : String :=
  "\x7b" ++
    String.intercalate ","
      (fields.map (fun p => "\"" ++ p.1 ++ "\":\"" ++ p.2 ++ "\"")) ++
    "\x7d"

/-- `toError`: an `Error` passes through; a string becomes an `Error` with
that message; any other value is serialized with `JSON.stringify` and
wrapped, falling back to a generic marker when serialization throws. -/
def toError : JsVal → JsErrorVal
  | .jsError m => { message := m }
  | .jsString s => { message := s }
  | .jsObject fields cyclic =>
    if cyclic then { message := "Unknown frontend error" }
    else { message := stringifyObject fields }

/-- Span status codes (`SpanStatusCode`). -/
inductive SpanStatusCode where
  | unset
  | ok
  | error
deriving DecidableEq, Repr

/-- A span attribute value (`string | number`). -/
inductive AttrVal where
  | aStr (s : String)
  | aNum (n : Int)
deriving DecidableEq, Repr

/-- The observable result of the diagnostic-span recording path: the span
built and closed by `recordFrontendError`. -/
structure Span where
  name : String
  exceptionMessages : List String
  statusCode : SpanStatusCode
  statusMessage : String
  attributes : List (String × AttrVal)
  ended : Bool
deriving DecidableEq, Repr

/-- `recordFrontendError`: start a span named `spanName` on the tracer for
`serviceName`, record the normalized error as an exception, set error
status with the normalized message, copy the attributes, and end the
span. -/
def recordFrontendError (serviceName : String) (spanName : String)
    (error : JsVal) (attributes : List (String × AttrVal)) : Span :=
  let normalizedError := toError error
  { name := spanName
    exceptionMessages := [normalizedError.message]
    statusCode := .error
    statusMessage := normalizedError.message
    attributes := attributes
    ended := true }

/-! ## Concrete sample data used to instantiate the theorems -/

/-- A sample request descriptor with no headers. -/
def sampleConfig : AxiosRequestConfig :=
  { url := some "/api/v1/items", headers := .absent }

/-- A heap holding `sampleConfig` at every reference. -/
def sampleHeap : Heap := fun _ => sampleConfig

/-- A sample trace-header record, as `propagation.inject` would produce
for an active context. -/
def sampleTraceHeaders : List (String × String) :=
  [("traceparent", "00-0af7651916cd43dd8448eb211c80319c-b7ad6b7169203331-01")]

/-- A sample request descriptor already carrying a stale `traceparent`
header and an unrelated `Accept` header. -/
def sampleHeaderedConfig : AxiosRequestConfig :=
  { url := some "/api/v1/items"
    headers := .plain [("traceparent", JVal.vStr "stale"),
      ("Accept", JVal.vStr "application/json")] }

/-- A sample registration state: flag unset, one unrelated interceptor
already on the chain. -/
def sampleInterceptorState : InterceptorState :=
  { registered := false, chain := [InterceptorTag.other 0] }

/-- A sample fully populated environment. -/
def sampleEnv : Env :=
  { VITE_OTEL_COLLECTOR_URL := some "http://collector:4318"
    VITE_OTEL_SERVICE_NAME := none
    VITE_API_URL := some "http://localhost:8000" }

/-- A sample environment in which only `VITE_API_URL` is absent. -/
def envNoApi : Env :=
  { VITE_OTEL_COLLECTOR_URL := some "http://collector:4318"
    VITE_OTEL_SERVICE_NAME := some "svc"
    VITE_API_URL := none }

/-- An external behavior in which the exporter constructor throws. -/
def extExporterThrows : ExtBehavior :=
  { exporterThrows := true
    providerThrows := false
    xhrEnableThrows := false
    docLoadThrows := false
    handlersThrow := false }

/-! ## Record lemmas -/

theorem recLookup_isSome_of_mem_keys (k : String) (l : List (String × String))
    (h : k ∈ keysOf l) : (recLookup k l).isSome = true := by
  induction l with
  | nil => simp [keysOf] at h
  | cons p l ih =>
    simp only [keysOf, List.map_cons, List.mem_cons] at h
    by_cases hpk : p.1 = k
    · simp [recLookup, hpk]
    · rcases h with h | h
      · exact absurd h.symm hpk
      · simpa [recLookup, hpk] using ih (by simpa [keysOf] using h)

theorem recLookup_isSome_of_mem (p : String × String) (l : List (String × String))
    (h : p ∈ l) : (recLookup p.1 l).isSome = true := by
  induction l with
  | nil => simp at h
  | cons q l ih =>
    by_cases hq : q.1 = p.1
    · simp [recLookup, hq]
    · rcases List.mem_cons.mp h with h | h
      · exact absurd (congrArg Prod.fst h).symm hq
      · simpa [recLookup, hq] using ih h

theorem recLookup_append_some (k v : String) (x y : List (String × String))
    (h : recLookup k x = some v) : recLookup k (x ++ y) = some v := by
  induction x with
  | nil => simp [recLookup] at h
  | cons p x ih =>
    by_cases hp : p.1 = k
    · simpa [recLookup, hp] using by simpa [recLookup, hp] using h
    · simp only [recLookup, hp, if_false, List.cons_append] at h ⊢
      exact ih h

theorem recLookup_append_none (k : String) (x y : List (String × String))
    (h : recLookup k x = none) : recLookup k (x ++ y) = recLookup k y := by
  induction x with
  | nil => rfl
  | cons p x ih =>
    by_cases hp : p.1 = k
    · simp [recLookup, hp] at h
    · simp only [recLookup, hp, if_false, List.cons_append] at h ⊢
      exact ih h

theorem recLookup_map_overrideWith (b a : List (String × String)) (k : String) :
    recLookup k (a.map (overrideWith b))
      = (recLookup k a).map (fun w => (recLookup k b).getD w) := by
  induction a with
  | nil => simp [recLookup]
  | cons p a ih =>
    by_cases hp : p.1 = k
    · subst hp
      cases hb : recLookup p.1 b <;>
        simp [recLookup, overrideWith, hb]
    · have hkey : (overrideWith b p).1 = p.1 := by
        unfold overrideWith; cases recLookup p.1 b <;> rfl
      simp only [List.map_cons, recLookup, hkey, hp, if_false, ih]

theorem recLookup_filter_of_false (k : String) (b : List (String × String))
    (pred : String × String → Bool)
    (h : ∀ p, p.1 = k → pred p = false) :
    recLookup k (b.filter pred) = none := by
  induction b with
  | nil => rfl
  | cons q b ih =>
    by_cases hq : q.1 = k
    · simp [List.filter_cons, h q hq, ih]
    · cases hpq : pred q <;> simp [List.filter_cons, hpq, recLookup, hq, ih]

theorem recLookup_filter_of_true (k : String) (b : List (String × String))
    (pred : String × String → Bool)
    (h : ∀ p, p.1 = k → pred p = true) :
    recLookup k (b.filter pred) = recLookup k b := by
  induction b with
  | nil => rfl
  | cons q b ih =>
    by_cases hq : q.1 = k
    · simp [List.filter_cons, h q hq, recLookup, hq]
    · cases hpq : pred q <;> simp [List.filter_cons, hpq, recLookup, hq, ih]

theorem spreadRec_recLookup_right (a b : List (String × String)) (k : String)
    (h : (recLookup k b).isSome = true) :
    recLookup k (spreadRec a b) = recLookup k b := by
  obtain ⟨v, hv⟩ := Option.isSome_iff_exists.mp h
  unfold spreadRec
  cases ha : recLookup k a with
  | some w =>
    have hmap : recLookup k (a.map (overrideWith b)) = some v := by
      rw [recLookup_map_overrideWith]; simp [ha, hv]
    rw [recLookup_append_some _ _ _ _ hmap, hv]
  | none =>
    have hmap : recLookup k (a.map (overrideWith b)) = none := by
      rw [recLookup_map_overrideWith]; simp [ha]
    rw [recLookup_append_none _ _ _ hmap]
    exact recLookup_filter_of_true k b _ (fun p hp => by simp [hp, ha])

theorem spreadRec_recLookup_left (a b : List (String × String)) (k : String)
    (h : recLookup k b = none) :
    recLookup k (spreadRec a b) = recLookup k a := by
  unfold spreadRec
  cases ha : recLookup k a with
  | some w =>
    have hmap : recLookup k (a.map (overrideWith b)) = some w := by
      rw [recLookup_map_overrideWith]; simp [ha, h]
    rw [recLookup_append_some _ _ _ _ hmap]
  | none =>
    have hmap : recLookup k (a.map (overrideWith b)) = none := by
      rw [recLookup_map_overrideWith]; simp [ha]
    rw [recLookup_append_none _ _ _ hmap,
      recLookup_filter_of_true k b _ (fun p hp => by simp [hp, ha]), h]

theorem filter_map_overrideWith (a b : List (String × String)) :
    (a.map (overrideWith b)).filter (fun p => (recLookup p.1 b).isNone)
      = a.filter (fun p => (recLookup p.1 b).isNone) := by
  induction a with
  | nil => rfl
  | cons p a ih =>
    cases hb : recLookup p.1 b with
    | some v => simp [List.filter_cons, overrideWith, hb, ih]
    | none => simp [List.filter_cons, overrideWith, hb, ih]

theorem spreadRec_preserves_nontrace (a b : List (String × String)) :
    (spreadRec a b).filter (fun p => (recLookup p.1 b).isNone)
      = a.filter (fun p => (recLookup p.1 b).isNone) := by
  unfold spreadRec
  rw [List.filter_append]
  have h2 : (b.filter (fun p => (recLookup p.1 a).isNone)).filter
      (fun p => (recLookup p.1 b).isNone) = [] := by
    rw [List.filter_eq_nil_iff]
    intro p hp
    obtain ⟨v, hv⟩ := Option.isSome_iff_exists.mp
      (recLookup_isSome_of_mem p b (List.mem_of_mem_filter hp))
    simp [hv]
  rw [filter_map_overrideWith, h2, List.append_nil]

theorem toHeaderRecord_ofStrings (l : List (String × String)) :
    toHeaderRecord (HeadersVal.ofStrings l) = l := by
  induction l with
  | nil => rfl
  | cons p l ih =>
    simpa [HeadersVal.ofStrings, toHeaderRecord, JVal.isAbsent, JVal.toStr,
      List.filter_cons] using ih

/-! ## Claim C1 -/

/-- **C1.** For every request descriptor whose existing header set
contains a key that trace-context serialization also produces, the output
of the interceptor uses the trace-context value for that key, every other
existing normalized header entry is preserved unchanged (as an entry list,
hence also in order), and the rest of the descriptor is untouched. -/
theorem injectHeaders_merge_precedence
    (traceHeaders : List (String × String)) (config : AxiosRequestConfig)
    (k : String)
    (hk : k ∈ keysOf traceHeaders)
    (hex : k ∈ keysOf (toHeaderRecord config.headers)) :
    recLookup k (toHeaderRecord (traceContextInterceptor traceHeaders config).headers)
        = recLookup k traceHeaders ∧
    (toHeaderRecord (traceContextInterceptor traceHeaders config).headers).filter
        (fun p => (recLookup p.1 traceHeaders).isNone)
      = (toHeaderRecord config.headers).filter
          (fun p => (recLookup p.1 traceHeaders).isNone) ∧
    (traceContextInterceptor traceHeaders config).url = config.url := by
  have hne : ¬ traceHeaders.length = 0 := by
    cases traceHeaders with
    | nil => simp [keysOf] at hk
    | cons p l => simp
  have hout : traceContextInterceptor traceHeaders config
      = { config with
          headers :=
            HeadersVal.ofStrings (spreadRec (toHeaderRecord config.headers) traceHeaders) } := by
    simp [traceContextInterceptor, hne]
  rw [hout]
  refine ⟨?_, ?_, rfl⟩
  · show recLookup k (toHeaderRecord (HeadersVal.ofStrings
        (spreadRec (toHeaderRecord config.headers) traceHeaders)))
      = recLookup k traceHeaders
    rw [toHeaderRecord_ofStrings]
    exact spreadRec_recLookup_right _ _ _
      (recLookup_isSome_of_mem_keys k traceHeaders hk)
  · show (toHeaderRecord (HeadersVal.ofStrings
        (spreadRec (toHeaderRecord config.headers) traceHeaders))).filter
          (fun p => (recLookup p.1 traceHeaders).isNone)
      = (toHeaderRecord config.headers).filter
          (fun p => (recLookup p.1 traceHeaders).isNone)
    rw [toHeaderRecord_ofStrings]
    exact spreadRec_preserves_nontrace _ _

/-- Witness for C1 at a concrete request carrying a stale `traceparent`
header and an unrelated `Accept` header. -/
theorem injectHeaders_merge_precedence_witness :
    recLookup "traceparent"
        (toHeaderRecord (traceContextInterceptor sampleTraceHeaders sampleHeaderedConfig).headers)
      = recLookup "traceparent" sampleTraceHeaders ∧
    (toHeaderRecord (traceContextInterceptor sampleTraceHeaders sampleHeaderedConfig).headers).filter
        (fun p => (recLookup p.1 sampleTraceHeaders).isNone)
      = (toHeaderRecord sampleHeaderedConfig.headers).filter
          (fun p => (recLookup p.1 sampleTraceHeaders).isNone) ∧
    (traceContextInterceptor sampleTraceHeaders sampleHeaderedConfig).url
      = sampleHeaderedConfig.url :=
  injectHeaders_merge_precedence sampleTraceHeaders sampleHeaderedConfig
    "traceparent" (by decide) (by decide)

/-! ## Claim C2 -/

/-- **C2** fails on the code: counterexample.  On a request held at
reference 0 with an active trace context, the interceptor returns the very
same reference (not a new descriptor) and the descriptor the caller
passed in has been mutated in place. -/
theorem injectHeaders_mutates_input :
    (traceContextInterceptorStep sampleTraceHeaders 0 sampleHeap).1 = 0 ∧
    ¬ ((traceContextInterceptorStep sampleTraceHeaders 0 sampleHeap).2 0
        = sampleConfig) := by
  constructor
  · rfl
  · decide

/-- **C2 (amended).** When trace headers are non-empty the interceptor
returns the input descriptor itself, mutated in place: its headers field
is replaced by the merged header set, its other fields are untouched, and
no other descriptor is modified (and no I/O is performed). -/
theorem injectHeaders_inplace_update
    (traceHeaders : List (String × String)) (hne : ¬ traceHeaders.length = 0)
    (r : Nat) (heap : Heap) :
    (traceContextInterceptorStep traceHeaders r heap).1 = r ∧
    (traceContextInterceptorStep traceHeaders r heap).2
      = (fun s => if s = r then traceContextInterceptor traceHeaders (heap r)
                  else heap s) ∧
    ((traceContextInterceptorStep traceHeaders r heap).2 r).headers
      = HeadersVal.ofStrings
          (spreadRec (toHeaderRecord (heap r).headers) traceHeaders) ∧
    ((traceContextInterceptorStep traceHeaders r heap).2 r).url = (heap r).url := by
  refine ⟨?_, ?_, ?_, ?_⟩ <;>
    simp [traceContextInterceptorStep, traceContextInterceptor, hne]

/-- Witness for the amended C2 at reference 0 of the sample heap. -/
theorem injectHeaders_inplace_update_witness :
    (traceContextInterceptorStep sampleTraceHeaders 0 sampleHeap).1 = 0 ∧
    (traceContextInterceptorStep sampleTraceHeaders 0 sampleHeap).2
      = (fun s => if s = 0 then traceContextInterceptor sampleTraceHeaders (sampleHeap 0)
                  else sampleHeap s) ∧
    ((traceContextInterceptorStep sampleTraceHeaders 0 sampleHeap).2 0).headers
      = HeadersVal.ofStrings
          (spreadRec (toHeaderRecord (sampleHeap 0).headers) sampleTraceHeaders) ∧
    ((traceContextInterceptorStep sampleTraceHeaders 0 sampleHeap).2 0).url
      = (sampleHeap 0).url :=
  injectHeaders_inplace_update sampleTraceHeaders (by decide) 0 sampleHeap

/-! ## Claim C3 -/

/-- **C3.** When trace-context serialization yields an empty header
mapping, the interceptor returns a descriptor equal to its input, and at
the heap level it also leaves every descriptor untouched. -/
theorem injectHeaders_empty_fastpath
    (traceHeaders : List (String × String)) (h : traceHeaders.length = 0)
    (config : AxiosRequestConfig) (r : Nat) (heap : Heap) :
    traceContextInterceptor traceHeaders config = config ∧
    traceContextInterceptorStep traceHeaders r heap = (r, heap) := by
  constructor
  · simp [traceContextInterceptor, h]
  · simp [traceContextInterceptorStep, h]

/-- Witness for C3 on the sample request and the sample heap. -/
theorem injectHeaders_empty_fastpath_witness :
    traceContextInterceptor [] sampleConfig = sampleConfig ∧
    traceContextInterceptorStep [] 0 sampleHeap = (0, sampleHeap) :=
  injectHeaders_empty_fastpath [] rfl sampleConfig 0 sampleHeap

/-! ## Claim C6 -/

/-- **C6.** Calling the registration entry point `n ≥ 1` times from a
state in which the flag is unset and the hook absent equals calling it
once, leaves exactly one occurrence of the hook in the shared client's
interceptor chain, sets the flag, and a further call is a no-op. -/
theorem registerTraceContextInterceptor_idempotent
    (s : InterceptorState) (n : Nat) (hn : 1 ≤ n)
    (hflag : s.registered = false)
    (hcount : s.chain.count InterceptorTag.traceContext = 0) :
    registerIter n s = registerTraceContextInterceptor s ∧
    (registerIter n s).chain.count InterceptorTag.traceContext = 1 ∧
    (registerIter n s).registered = true ∧
    registerTraceContextInterceptor (registerIter n s) = registerIter n s := by
  have hreg : ∀ t : InterceptorState, t.registered = true →
      registerTraceContextInterceptor t = t := by
    intro t ht
    simp [registerTraceContextInterceptor, ht]
  have hiter : ∀ m (t : InterceptorState), t.registered = true →
      registerIter m t = t := by
    intro m
    induction m with
    | zero => intro t _; rfl
    | succ m ih =>
      intro t ht
      show registerIter m (registerTraceContextInterceptor t) = t
      rw [hreg t ht]
      exact ih t ht
  obtain ⟨m, rfl⟩ : ∃ m, n = m + 1 := by
    cases n with
    | zero => omega
    | succ m => exact ⟨m, rfl⟩
  have hone : registerTraceContextInterceptor s
      = { registered := true, chain := s.chain ++ [InterceptorTag.traceContext] } := by
    simp [registerTraceContextInterceptor, hflag]
  have hn1 : registerIter (m + 1) s = registerTraceContextInterceptor s := by
    show registerIter m (registerTraceContextInterceptor s) = registerTraceContextInterceptor s
    rw [hone]
    exact hiter m _ rfl
  refine ⟨hn1, ?_, ?_, ?_⟩
  · rw [hn1, hone]
    simp [List.count_append, hcount]
  · rw [hn1, hone]
  · rw [hn1]
    exact hreg _ (by rw [hone])

/-- Witness for C6: three calls from the pristine module state, with one
unrelated interceptor already on the chain. -/
theorem registerTraceContextInterceptor_idempotent_witness :
    registerIter 3 sampleInterceptorState
      = registerTraceContextInterceptor sampleInterceptorState ∧
    (registerIter 3 sampleInterceptorState).chain.count InterceptorTag.traceContext = 1 ∧
    (registerIter 3 sampleInterceptorState).registered = true ∧
    registerTraceContextInterceptor (registerIter 3 sampleInterceptorState)
      = registerIter 3 sampleInterceptorState :=
  registerTraceContextInterceptor_idempotent sampleInterceptorState 3
    (by decide) (by decide) (by decide)

/-! ## Bootstrap lemmas -/

theorem jsOrDefault_none (d : String) : jsOrDefault none d = d := rfl

theorem jsOrDefault_self (d : String) : jsOrDefault (some d) d = d := by
  simp [jsOrDefault]

theorem initTelemetryBody_ok_flag (ext : ExtBehavior) (env : Env)
    (s t : TelemetryState)
    (h : initTelemetryBody ext env s = Except.ok t) :
    t.telemetryInitialized = true := by
  unfold initTelemetryBody at h
  rcases ext with ⟨e1, e2, e3, e4, e5⟩
  cases henv : env.VITE_API_URL <;>
    cases e1 <;> cases e2 <;> cases e3 <;> cases e4 <;> cases e5 <;>
      simp_all <;> rw [← h]

theorem initTelemetry_flag (ext : ExtBehavior) (env : Env) (s : TelemetryState)
    (h : s.telemetryInitialized = true) : initTelemetry ext env s = s := by
  simp [initTelemetry, h]

theorem initTelemetry_flag_set (ext : ExtBehavior) (env : Env)
    (s : TelemetryState) (h : s.telemetryInitialized = false) :
    (initTelemetry ext env s).telemetryInitialized = true := by
  unfold initTelemetry
  simp only [h, Bool.false_eq_true, if_false]
  cases hb : initTelemetryBody ext env s with
  | ok t => simpa using initTelemetryBody_ok_flag ext env s t hb
  | error sp => simp

theorem initTelemetry_sets_flag (ext : ExtBehavior) (env : Env)
    (s : TelemetryState) :
    (initTelemetry ext env s).telemetryInitialized = true := by
  by_cases h : s.telemetryInitialized = true
  · rw [initTelemetry_flag ext env s h]; exact h
  · exact initTelemetry_flag_set ext env s (by simpa using h)

theorem initSeq_flag (calls : List (ExtBehavior × Env)) (t : TelemetryState)
    (h : t.telemetryInitialized = true) : initSeq calls t = t := by
  induction calls with
  | nil => rfl
  | cons ee calls ih =>
    show initSeq calls (initTelemetry ee.1 ee.2 t) = t
    rw [initTelemetry_flag ee.1 ee.2 t h]
    exact ih


theorem initTelemetry_initial_effects (ext : ExtBehavior) (env : Env) :
    (initTelemetry ext env initialTelemetryState).exporters.length ≤ 1 ∧
    (initTelemetry ext env initialTelemetryState).providers.length ≤ 1 ∧
    (initTelemetry ext env initialTelemetryState).xhrEnabled.length ≤ 1 ∧
    (initTelemetry ext env initialTelemetryState).docLoadEnabled ≤ 1 ∧
    (initTelemetry ext env initialTelemetryState).handlerServices.length ≤ 1 := by
  rcases ext with ⟨e1, e2, e3, e4, e5⟩
  cases henv : env.VITE_API_URL <;>
    cases e1 <;> cases e2 <;> cases e3 <;> cases e4 <;> cases e5 <;>
      simp_all [initTelemetry, initTelemetryBody, initialTelemetryState]

/-! ## Claim C4 -/

/-- **C4.** From the module-initial state, any number of further calls to
`initTelemetry` (under any environments and any library behaviors) leaves
the state of the first call untouched: the exporter is constructed, the
provider registered, the instrumentations enabled and the handler pair
installed at most once; the initialization flag is true after the first
call — even when the body throws, since `ext` is arbitrary — and is never
reset. -/
theorem initTelemetry_idempotent (ext : ExtBehavior) (env : Env)
    (calls : List (ExtBehavior × Env)) :
    (initTelemetry ext env initialTelemetryState).telemetryInitialized = true ∧
    initSeq calls (initTelemetry ext env initialTelemetryState)
      = initTelemetry ext env initialTelemetryState ∧
    (initSeq calls (initTelemetry ext env initialTelemetryState)).exporters.length ≤ 1 ∧
    (initSeq calls (initTelemetry ext env initialTelemetryState)).providers.length ≤ 1 ∧
    (initSeq calls (initTelemetry ext env initialTelemetryState)).xhrEnabled.length ≤ 1 ∧
    (initSeq calls (initTelemetry ext env initialTelemetryState)).docLoadEnabled ≤ 1 ∧
    (initSeq calls (initTelemetry ext env initialTelemetryState)).handlerServices.length ≤ 1 := by
  have hflag := initTelemetry_sets_flag ext env initialTelemetryState
  have hseq := initSeq_flag calls _ hflag
  rw [hseq]
  obtain ⟨h1, h2, h3, h4, h5⟩ := initTelemetry_initial_effects ext env
  exact ⟨hflag, rfl, h1, h2, h3, h4, h5⟩

/-! ## Claim C5 -/

/-- **C5.** Exceptions thrown inside the initialization body are fully
swallowed: whenever the body throws (leaving the partial state `sp`),
`initTelemetry` returns normally with exactly `sp` plus the
initialization flag set and one warning emitted, and a later call does
not retry.  (The embedding is total, so no exception can escape
`initTelemetry` itself.) -/
theorem initTelemetry_swallows_exceptions (ext : ExtBehavior) (env : Env)
    (s sp : TelemetryState)
    (hflag : s.telemetryInitialized = false)
    (herr : initTelemetryBody ext env s = Except.error sp) :
    initTelemetry ext env s
      = { sp with telemetryInitialized := true, warnings := sp.warnings + 1 } ∧
    (initTelemetry ext env s).telemetryInitialized = true ∧
    (initTelemetry ext env s).warnings = sp.warnings + 1 ∧
    initTelemetry ext env (initTelemetry ext env s) = initTelemetry ext env s := by
  have h1 : initTelemetry ext env s
      = { sp with telemetryInitialized := true, warnings := sp.warnings + 1 } := by
    simp [initTelemetry, hflag, herr]
  refine ⟨h1, ?_, ?_, ?_⟩ <;> rw [h1]
  exact initTelemetry_flag ext env _ rfl

/-- Witness for C5: the exporter constructor throws on the very first
step, so the body fails with the initial state as the partial state. -/
theorem initTelemetry_swallows_exceptions_witness :
    initTelemetry extExporterThrows sampleEnv initialTelemetryState
      = { initialTelemetryState with
          telemetryInitialized := true
          warnings := initialTelemetryState.warnings + 1 } ∧
    (initTelemetry extExporterThrows sampleEnv initialTelemetryState).telemetryInitialized
      = true ∧
    (initTelemetry extExporterThrows sampleEnv initialTelemetryState).warnings
      = initialTelemetryState.warnings + 1 ∧
    initTelemetry extExporterThrows sampleEnv
        (initTelemetry extExporterThrows sampleEnv initialTelemetryState)
      = initTelemetry extExporterThrows sampleEnv initialTelemetryState :=
  initTelemetry_swallows_exceptions extExporterThrows sampleEnv
    initialTelemetryState initialTelemetryState rfl rfl

/-! ## Claim C7 -/

/-- **C7** fails on the code: with the collector URL and the service name
present but `VITE_API_URL` absent, `initTelemetry` does not fall back to
any default for the API base URL — the body throws while building the
propagation pattern, a warning is recorded, and neither the XHR
instrumentation nor the error handlers are installed. -/
theorem initTelemetry_no_api_default :
    ¬ ((initTelemetry extHonest envNoApi initialTelemetryState).warnings = 0) ∧
    (initTelemetry extHonest envNoApi initialTelemetryState).xhrEnabled = [] ∧
    (initTelemetry extHonest envNoApi initialTelemetryState).handlerServices = [] := by
  refine ⟨?_, ?_, ?_⟩ <;> decide

/-- **C7 (amended).** The collector endpoint URL and the logical service
name are independently optional with documented defaults (an absent value
behaves exactly as if the default had been supplied).  The first-party
API base URL is not optional: it has no default, and when it is absent
the initialization body throws, a warning is emitted and neither the XHR
instrumentation nor the handlers are installed. -/
theorem initTelemetry_optional_inputs (ext : ExtBehavior) (s : TelemetryState)
    (c svc : Option String) (api : String)
    (hflag : s.telemetryInitialized = false) :
    initTelemetry ext
        { VITE_OTEL_COLLECTOR_URL := none
          VITE_OTEL_SERVICE_NAME := svc
          VITE_API_URL := some api } s
      = initTelemetry ext
          { VITE_OTEL_COLLECTOR_URL := some DEFAULT_OTEL_COLLECTOR_URL
            VITE_OTEL_SERVICE_NAME := svc
            VITE_API_URL := some api } s ∧
    initTelemetry ext
        { VITE_OTEL_COLLECTOR_URL := c
          VITE_OTEL_SERVICE_NAME := none
          VITE_API_URL := some api } s
      = initTelemetry ext
          { VITE_OTEL_COLLECTOR_URL := c
            VITE_OTEL_SERVICE_NAME := some DEFAULT_OTEL_SERVICE_NAME
            VITE_API_URL := some api } s ∧
    (initTelemetry ext
        { VITE_OTEL_COLLECTOR_URL := c
          VITE_OTEL_SERVICE_NAME := svc
          VITE_API_URL := none } s).warnings = s.warnings + 1 ∧
    (initTelemetry ext
        { VITE_OTEL_COLLECTOR_URL := c
          VITE_OTEL_SERVICE_NAME := svc
          VITE_API_URL := none } s).xhrEnabled = s.xhrEnabled ∧
    (initTelemetry ext
        { VITE_OTEL_COLLECTOR_URL := c
          VITE_OTEL_SERVICE_NAME := svc
          VITE_API_URL := none } s).handlerServices = s.handlerServices := by
  refine ⟨?_, ?_, ?_, ?_, ?_⟩
  · simp only [initTelemetry, initTelemetryBody, jsOrDefault_none, jsOrDefault_self]
  · simp only [initTelemetry, initTelemetryBody, jsOrDefault_none, jsOrDefault_self]
  · rcases ext with ⟨e1, e2, e3, e4, e5⟩
    cases e1 <;> cases e2 <;> simp_all [initTelemetry, initTelemetryBody]
  · rcases ext with ⟨e1, e2, e3, e4, e5⟩
    cases e1 <;> cases e2 <;> simp_all [initTelemetry, initTelemetryBody]
  · rcases ext with ⟨e1, e2, e3, e4, e5⟩
    cases e1 <;> cases e2 <;> simp_all [initTelemetry, initTelemetryBody]

/-- Witness for the amended C7, from the initial state with ambient
values for the present variables. -/
theorem initTelemetry_optional_inputs_witness :
    initTelemetry extHonest
        { VITE_OTEL_COLLECTOR_URL := none
          VITE_OTEL_SERVICE_NAME := some "svc"
          VITE_API_URL := some "http://localhost:8000" } initialTelemetryState
      = initTelemetry extHonest
          { VITE_OTEL_COLLECTOR_URL := some DEFAULT_OTEL_COLLECTOR_URL
            VITE_OTEL_SERVICE_NAME := some "svc"
            VITE_API_URL := some "http://localhost:8000" } initialTelemetryState ∧
    initTelemetry extHonest
        { VITE_OTEL_COLLECTOR_URL := some "http://collector:4318"
          VITE_OTEL_SERVICE_NAME := none
          VITE_API_URL := some "http://localhost:8000" } initialTelemetryState
      = initTelemetry extHonest
          { VITE_OTEL_COLLECTOR_URL := some "http://collector:4318"
            VITE_OTEL_SERVICE_NAME := some DEFAULT_OTEL_SERVICE_NAME
            VITE_API_URL := some "http://localhost:8000" } initialTelemetryState ∧
    (initTelemetry extHonest
        { VITE_OTEL_COLLECTOR_URL := some "http://collector:4318"
          VITE_OTEL_SERVICE_NAME := some "svc"
          VITE_API_URL := none } initialTelemetryState).warnings
      = initialTelemetryState.warnings + 1 ∧
    (initTelemetry extHonest
        { VITE_OTEL_COLLECTOR_URL := some "http://collector:4318"
          VITE_OTEL_SERVICE_NAME := some "svc"
          VITE_API_URL := none } initialTelemetryState).xhrEnabled
      = initialTelemetryState.xhrEnabled ∧
    (initTelemetry extHonest
        { VITE_OTEL_COLLECTOR_URL := some "http://collector:4318"
          VITE_OTEL_SERVICE_NAME := some "svc"
          VITE_API_URL := none } initialTelemetryState).handlerServices
      = initialTelemetryState.handlerServices :=
  initTelemetry_optional_inputs extHonest initialTelemetryState
    (some "http://collector:4318") (some "svc") "http://localhost:8000" rfl

/-! ## Claim C10 -/

/-- **C10.** When `VITE_API_URL` is absent on the first call (flag unset)
and the exporter and provider steps themselves do not fail,
initialization throws while building the propagation URL pattern: the
exporter is constructed and the provider registered, but neither
instrumentation is enabled and no error handler is installed; the
exception is swallowed (one warning), the flag is still set, and a later
call is a no-op, leaving telemetry permanently in this partially
initialized state. -/
theorem initTelemetry_missing_api_url_degrades (env : Env) (ext : ExtBehavior)
    (s : TelemetryState)
    (hapi : env.VITE_API_URL = none)
    (hflag : s.telemetryInitialized = false)
    (hexp : ext.exporterThrows = false)
    (hprov : ext.providerThrows = false) :
    initTelemetry ext env s
      = { s with
          exporters := s.exporters ++ [getTraceExporterUrl (jsOrDefault env.VITE_OTEL_COLLECTOR_URL DEFAULT_OTEL_COLLECTOR_URL)]
          providers := s.providers ++ [jsOrDefault env.VITE_OTEL_SERVICE_NAME DEFAULT_OTEL_SERVICE_NAME]
          telemetryInitialized := true
          warnings := s.warnings + 1 } ∧
    (initTelemetry ext env s).xhrEnabled = s.xhrEnabled ∧
    (initTelemetry ext env s).docLoadEnabled = s.docLoadEnabled ∧
    (initTelemetry ext env s).handlerServices = s.handlerServices ∧
    initTelemetry ext env (initTelemetry ext env s) = initTelemetry ext env s := by
  have hbody : initTelemetryBody ext env s
      = Except.error
          { s with
            exporters := s.exporters ++ [getTraceExporterUrl (jsOrDefault env.VITE_OTEL_COLLECTOR_URL DEFAULT_OTEL_COLLECTOR_URL)]
            providers := s.providers ++ [jsOrDefault env.VITE_OTEL_SERVICE_NAME DEFAULT_OTEL_SERVICE_NAME] } := by
    simp [initTelemetryBody, hapi, hexp, hprov]
  have h1 : initTelemetry ext env s
      = { s with
          exporters := s.exporters ++ [getTraceExporterUrl (jsOrDefault env.VITE_OTEL_COLLECTOR_URL DEFAULT_OTEL_COLLECTOR_URL)]
          providers := s.providers ++ [jsOrDefault env.VITE_OTEL_SERVICE_NAME DEFAULT_OTEL_SERVICE_NAME]
          telemetryInitialized := true
          warnings := s.warnings + 1 } := by
    simp [initTelemetry, hflag, hbody]
  refine ⟨h1, ?_, ?_, ?_, ?_⟩ <;> rw [h1]
  exact initTelemetry_flag ext env _ rfl

/-- Witness for C10: absent API URL, well-behaved libraries, initial
state. -/
theorem initTelemetry_missing_api_url_degrades_witness :
    initTelemetry extHonest envNoApi initialTelemetryState
      = { initialTelemetryState with
          exporters := initialTelemetryState.exporters ++ [getTraceExporterUrl (jsOrDefault envNoApi.VITE_OTEL_COLLECTOR_URL DEFAULT_OTEL_COLLECTOR_URL)]
          providers := initialTelemetryState.providers ++ [jsOrDefault envNoApi.VITE_OTEL_SERVICE_NAME DEFAULT_OTEL_SERVICE_NAME]
          telemetryInitialized := true
          warnings := initialTelemetryState.warnings + 1 } ∧
    (initTelemetry extHonest envNoApi initialTelemetryState).xhrEnabled
      = initialTelemetryState.xhrEnabled ∧
    (initTelemetry extHonest envNoApi initialTelemetryState).docLoadEnabled
      = initialTelemetryState.docLoadEnabled ∧
    (initTelemetry extHonest envNoApi initialTelemetryState).handlerServices
      = initialTelemetryState.handlerServices ∧
    initTelemetry extHonest envNoApi (initTelemetry extHonest envNoApi initialTelemetryState)
      = initTelemetry extHonest envNoApi initialTelemetryState :=
  initTelemetry_missing_api_url_degrades envNoApi extHonest initialTelemetryState
    rfl rfl rfl rfl

/-! ## Claim C8 -/

/-- **C8** fails on the code: the empty string is a string value (a member
of the claimed input class), and on it the recording path produces a span
whose error-status message is empty: `toError("")` is `new Error("")`. -/
theorem recordFrontendError_empty_message :
    (recordFrontendError "react-frontend" "frontend.unhandled_error"
        (JsVal.jsString "") []).statusCode = SpanStatusCode.error ∧
    (recordFrontendError "react-frontend" "frontend.unhandled_error"
        (JsVal.jsString "") []).statusMessage = "" := by
  constructor <;> rfl

/-- **C8 (amended).** The diagnostic-span recording path never raises (it
is a total function of the embedded inputs) and always produces an ended
span carrying error status whose message is the normalized error message:
the original message for an Error-shaped value, the string itself for a
string, the JSON serialization (always non-empty) for a plain object, and
a fixed non-empty marker when serialization throws.  The message is empty
exactly when the input was an Error with an empty message or the empty
string. -/
theorem recordFrontendError_normalization (serviceName spanName : String)
    (v : JsVal) (attrs : List (String × AttrVal))
    (fields : List (String × String)) (es em : String) :
    (recordFrontendError serviceName spanName v attrs).statusCode
      = SpanStatusCode.error ∧
    (recordFrontendError serviceName spanName v attrs).statusMessage
      = (toError v).message ∧
    (recordFrontendError serviceName spanName v attrs).exceptionMessages
      = [(toError v).message] ∧
    (recordFrontendError serviceName spanName v attrs).ended = true ∧
    (recordFrontendError serviceName spanName v attrs).attributes = attrs ∧
    (recordFrontendError serviceName spanName v attrs).name = spanName ∧
    toError (JsVal.jsError em) = { message := em } ∧
    toError (JsVal.jsString es) = { message := es } ∧
    toError (JsVal.jsObject fields true) = { message := "Unknown frontend error" } ∧
    0 < (toError (JsVal.jsObject fields false)).message.length := by
  refine ⟨rfl, rfl, rfl, rfl, rfl, rfl, rfl, rfl, rfl, ?_⟩
  have h1 : (0 : Nat) < ("\x7b" : String).length := by decide
  simp [toError, stringifyObject, String.length_append]
  exact Or.inl (Or.inl h1)

/-! ## Claim C9 -/

theorem stripEscapes_cons_esc (c : Char) (rest : List Char) :
    stripEscapes ('\\' :: c :: rest) = c :: stripEscapes rest := by
  simp [stripEscapes]

theorem stripEscapes_cons_ne (c : Char) (rest : List Char) (h : ¬ c = '\\') :
    stripEscapes (c :: rest) = c :: stripEscapes rest := by
  cases rest <;> simp [stripEscapes, h]

theorem stripEscapes_escapeRegexList (l : List Char) :
    stripEscapes (escapeRegexList l) = l := by
  induction l with
  | nil => rfl
  | cons c l ih =>
    by_cases hc : c ∈ regexMetaChars
    · simp [escapeRegexList, hc, stripEscapes_cons_esc, ih]
    · have hcb : ¬ (c = '\\') := by
        intro h
        exact hc (by rw [h]; decide)
      simp [escapeRegexList, hc, stripEscapes_cons_ne _ _ hcb, ih]

theorem testAnchoredEscaped_escape (base url : String) :
    testAnchoredEscaped ("^" ++ escapeRegex base) url
      = base.toList.isPrefixOf url.toList := by
  have hlist : ("^" ++ escapeRegex base).toList
      = '^' :: escapeRegexList base.toList := by
    have h := String.data_append "^" (escapeRegex base)
    simpa [escapeRegex, String.toList] using h
  unfold testAnchoredEscaped
  rw [hlist]
  simp [stripEscapes_escapeRegexList]

/-- **C9** fails on the code: the API-client interceptor never inspects
the destination URL, so a request bound for a third-party destination —
one that does not match the configured first-party base URL
`http://localhost:8000` — still receives the `traceparent` header whenever
a trace context is active. -/
theorem injectHeaders_ignores_destination :
    recLookup "traceparent"
        (toHeaderRecord (traceContextInterceptor sampleTraceHeaders
          { url := some "https://third-party.example/x", headers := .absent }).headers)
      = some "00-0af7651916cd43dd8448eb211c80319c-b7ad6b7169203331-01" ∧
    ("http://localhost:8000" : String).toList.isPrefixOf
        ("https://third-party.example/x" : String).toList = false := by
  constructor <;> decide

/-- **C9 (amended).** Requests handled by the XHR instrumentation that
`initTelemetry` configures receive trace propagation headers exactly when
the destination is not the trace-export endpoint and matches (has as a
literal prefix) the configured first-party base URL, and no span is
auto-created for the trace-export endpoint itself.  The API-client
interceptor, in contrast, adds trace headers to every request passing
through it whenever a trace context is active, regardless of destination
(see the counterexample). -/
theorem initTelemetry_xhr_scoping (env : Env) (s : TelemetryState)
    (base url : String)
    (hapi : env.VITE_API_URL = some base)
    (hflag : s.telemetryInitialized = false) :
    (initTelemetry extHonest env s).xhrEnabled
      = s.xhrEnabled ++
          [{ ignoreUrls := [getTraceExporterUrl (jsOrDefault env.VITE_OTEL_COLLECTOR_URL DEFAULT_OTEL_COLLECTOR_URL)]
             propagateSources := ["^" ++ escapeRegex base] }] ∧
    xhrAddsTraceHeaders
        { ignoreUrls := [getTraceExporterUrl (jsOrDefault env.VITE_OTEL_COLLECTOR_URL DEFAULT_OTEL_COLLECTOR_URL)]
          propagateSources := ["^" ++ escapeRegex base] } url
      = (!(decide (url = getTraceExporterUrl (jsOrDefault env.VITE_OTEL_COLLECTOR_URL DEFAULT_OTEL_COLLECTOR_URL)))
          && base.toList.isPrefixOf url.toList) ∧
    xhrCreatesSpan
        { ignoreUrls := [getTraceExporterUrl (jsOrDefault env.VITE_OTEL_COLLECTOR_URL DEFAULT_OTEL_COLLECTOR_URL)]
          propagateSources := ["^" ++ escapeRegex base] }
        (getTraceExporterUrl (jsOrDefault env.VITE_OTEL_COLLECTOR_URL DEFAULT_OTEL_COLLECTOR_URL))
      = false := by
  refine ⟨?_, ?_, ?_⟩
  · simp [initTelemetry, initTelemetryBody, extHonest, hflag, hapi]
  · simp [xhrAddsTraceHeaders, xhrCreatesSpan, testAnchoredEscaped_escape]
  · simp [xhrCreatesSpan]

/-- Witness for the amended C9: the sample environment, a third-party
destination URL, and the initial state. -/
theorem initTelemetry_xhr_scoping_witness :
    (initTelemetry extHonest sampleEnv initialTelemetryState).xhrEnabled
      = initialTelemetryState.xhrEnabled ++
          [{ ignoreUrls := [getTraceExporterUrl (jsOrDefault sampleEnv.VITE_OTEL_COLLECTOR_URL DEFAULT_OTEL_COLLECTOR_URL)]
             propagateSources := ["^" ++ escapeRegex "http://localhost:8000"] }] ∧
    xhrAddsTraceHeaders
        { ignoreUrls := [getTraceExporterUrl (jsOrDefault sampleEnv.VITE_OTEL_COLLECTOR_URL DEFAULT_OTEL_COLLECTOR_URL)]
          propagateSources := ["^" ++ escapeRegex "http://localhost:8000"] }
        "https://third-party.example/x"
      = (!(decide (("https://third-party.example/x" : String) = getTraceExporterUrl (jsOrDefault sampleEnv.VITE_OTEL_COLLECTOR_URL DEFAULT_OTEL_COLLECTOR_URL)))
          && ("http://localhost:8000" : String).toList.isPrefixOf
              ("https://third-party.example/x" : String).toList) ∧
    xhrCreatesSpan
        { ignoreUrls := [getTraceExporterUrl (jsOrDefault sampleEnv.VITE_OTEL_COLLECTOR_URL DEFAULT_OTEL_COLLECTOR_URL)]
          propagateSources := ["^" ++ escapeRegex "http://localhost:8000"] }
        (getTraceExporterUrl (jsOrDefault sampleEnv.VITE_OTEL_COLLECTOR_URL DEFAULT_OTEL_COLLECTOR_URL))
      = false :=
  initTelemetry_xhr_scoping sampleEnv initialTelemetryState
    "http://localhost:8000" "https://third-party.example/x" rfl rfl

end Telemetry
